import Mathlib

/-!
Verification of the cross-account delegated invoker in
`src/operations/vpc-service-endpoint-permissions/stacks/vpc-endpoint-permissions-spoke/v1/src/spoke_lambda.py`.

The Python module is embedded shallowly:

* Python dictionaries that flow through the handler are association lists
  `List (String × Value)` at the top level; JSON-like values nested inside a
  dictionary are the mutual inductives `Value` / `ValueDict`.
* Python exceptions are `PyExc`; a Python function that may raise returns
  `Except PyExc α`.  A `try/except` clause is a `match` on that result.
* The cloud environment (the `os.environ` mapping, the STS `assume_role`
  endpoint and the Lambda `invoke` endpoint) is a record `Env` of inputs; each
  of its effectful endpoints is a function returning `Except PyExc _`, so one
  `Env` value fixes one concrete behaviour of the outside world.
* The raw `lambda_client.invoke` response is `RawResponse`.  Its field
  `payloadJson` is the environment-supplied outcome of `json.loads` on the
  payload bytes (`Except.error msg` when the bytes are not valid JSON, which
  in Python raises `json.JSONDecodeError(msg)`).
* Library helpers used by the module (`base64.b64decode`, `json.dumps` on a
  string) are given executable models (`base64_b64decode`,
  `json_dumps_string`, `Value.dumps`).
-/

namespace Spoke

/-- Model of a raised Python exception, tagged by the class the code
distinguishes: `botocore.exceptions.ClientError` (the only class the local
handler in `invoke_lambda_in_the_networking_account` catches), `KeyError`,
`json.JSONDecodeError`, `TypeError`, and anything else. -/
inductive PyExc where
  | clientError (msg : String)
  | keyError (key : String)
  | jsonDecodeError (msg : String)
  | typeError (msg : String)
  | other (msg : String)

/-- Model of Python `str(ex)` on an exception: `str(KeyError(k))` is the key
wrapped in single quotes; for the other classes it is the carried message. -/
def PyExc.toStr : PyExc → String
  | .clientError m => m
  | .keyError k => "\x27" ++ k ++ "\x27"
  | .jsonDecodeError m => m
  | .typeError m => m
  | .other m => m

mutual
/-- A JSON-like Python value nested inside a dictionary: an int, a string, a
`botocore` streaming body (the `Payload` object, carrying its bytes), or a
nested dictionary. -/
inductive Value where
  | n : Nat → Value
  | s : String → Value
  | stream : String → Value
  | d : ValueDict → Value

/-- A nested Python dictionary with string keys, as an association list. -/
inductive ValueDict where
  | nil : ValueDict
  | cons : String → Value → ValueDict → ValueDict
end

/-- Lookup in a nested dictionary (first matching key wins). -/
def ValueDict.get : ValueDict → String → Option Value
  | .nil, _ => none
  | .cons k v rest, key => if k == key then some v else rest.get key

/-- Python `v[key]` on a JSON-decoded value: a `KeyError` when the key is
absent from a dictionary, a `TypeError` when `v` is not a dictionary. -/
def pyGetItem (v : Value) (key : String) : Except PyExc Value :=
  match v with
  | .d m =>
    match m.get key with
    | some x => Except.ok x
    | none => Except.error (.keyError key)
  | _ => Except.error (.typeError "value is not subscriptable")

/-- JSON string escaping as `json.dumps` performs it on the characters that
occur here: quote and backslash are escaped, other characters pass through. -/
def jsonEscape (c : Char) : String :=
  if c = '"' then "\\\"" else if c = '\\' then "\\\\" else String.singleton c

/-- Model of Python `json.dumps(s)` for a string `s`: the escaped text in
double quotes. -/
def json_dumps_string (str : String) : String :=
  "\"" ++ String.join (str.data.map jsonEscape) ++ "\""

mutual
/-- Model of Python `json.dumps` on a JSON-like value, with the default
separators. -/
def Value.dumps : Value → String
  | .n k => toString k
  | .s str => json_dumps_string str
  | .stream str => json_dumps_string str
  | .d m => "\x7b" ++ ValueDict.dumpsBody m ++ "\x7d"

/-- Body of a serialized dictionary: comma-separated `key: value` pairs. -/
def ValueDict.dumpsBody : ValueDict → String
  | .nil => ""
  | .cons k v .nil => json_dumps_string k ++ ": " ++ Value.dumps v
  | .cons k v rest => json_dumps_string k ++ ": " ++ Value.dumps v ++ ", " ++ ValueDict.dumpsBody rest
end

/-- Value of one base64 alphabet character, `none` for padding or foreign
characters. -/
def b64Val (c : Char) : Option Nat :=
  if 'A' ≤ c ∧ c ≤ 'Z' then some (c.toNat - 65)
  else if 'a' ≤ c ∧ c ≤ 'z' then some (c.toNat - 97 + 26)
  else if '0' ≤ c ∧ c ≤ '9' then some (c.toNat - 48 + 52)
  else if c = '+' then some 62
  else if c = '/' then some 63
  else none

/-- Decode base64 input four characters at a time into byte values,
honouring one or two padding characters in the final group. -/
def b64DecodeGroups : List Char → List Nat
  | a :: b :: c :: d :: rest =>
    match b64Val a, b64Val b, b64Val c, b64Val d with
    | some va, some vb, some vc, some vd =>
      (va * 4 + vb / 16) :: ((vb % 16) * 16 + vc / 4) :: ((vc % 4) * 64 + vd) :: b64DecodeGroups rest
    | some va, some vb, some vc, none =>
      (va * 4 + vb / 16) :: ((vb % 16) * 16 + vc / 4) :: []
    | some va, some vb, none, _ =>
      (va * 4 + vb / 16) :: []
    | _, _, _, _ => []
  | _ => []

/-- Model of `base64.b64decode(s).decode()` on the log blobs handled here. -/
def base64_b64decode (str : String) : String :=
  String.mk ((b64DecodeGroups str.data).map Char.ofNat)

/-- Source `decode_log_result`: the log result is base64 encoded. -/
def decode_log_result (log_result : String) : String :=
  base64_b64decode log_result

/-- A top-level Python dictionary flowing through the handler. -/
abbrev PyDict := List (String × Value)

/-- Python `d[key]` on a top-level dictionary, raising `KeyError` when the
key is absent. -/
def dictGet (d : PyDict) (key : String) : Except PyExc Value :=
  match d.find? (fun kv => kv.1 == key) with
  | some kv => Except.ok kv.2
  | none => Except.error (.keyError key)

/-- Whether a top-level dictionary has a key. -/
def dictHasKey (d : PyDict) (key : String) : Bool :=
  d.any (fun kv => kv.1 == key)

/-- Python `d[key] = v`: overwrite in place when present, append otherwise. -/
def dictSet (d : PyDict) (key : String) (v : Value) : PyDict :=
  if dictHasKey d key then d.map (fun kv => if kv.1 == key then (key, v) else kv)
  else d ++ [(key, v)]

/-- The keys of a top-level dictionary, in order. -/
def keysOf (d : PyDict) : List String :=
  d.map Prod.fst

/-- Python `x == 200` for a JSON-decoded value: true exactly on the int 200. -/
def Value.isN200 : Value → Bool
  | .n k => k == 200
  | _ => false

/-- The temporary credential triple extracted from the STS token. -/
structure Credentials where
  accessKeyId : String
  secretAccessKey : String
  sessionToken : String

/-- The Lambda client built from a session holding temporary credentials. -/
structure LambdaClient where
  awsAccessKeyId : String
  awsSecretAccessKey : String
  awsSessionToken : String

/-- The raw result of `lambda_client.invoke`, as the code reads it:
`ResponseMetadata.HTTPStatusCode`, the top-level `StatusCode`, the optional
`FunctionError` and `LogResult` keys, the payload bytes, and `payloadJson`,
the environment-supplied outcome of `json.loads` on those bytes. -/
structure RawResponse where
  httpStatusCode : Nat
  transportStatusCode : Nat
  functionError : Option String
  logResult : Option String
  payloadBytes : String
  payloadJson : Except String Value

/-- The dictionary form of a raw invoke response, as boto3 delivers it:
`FunctionError` and `LogResult` are present exactly when set. -/
def RawResponse.toDict (r : RawResponse) : PyDict :=
  [("ResponseMetadata", Value.d (ValueDict.cons "HTTPStatusCode" (Value.n r.httpStatusCode) ValueDict.nil)),
   ("StatusCode", Value.n r.transportStatusCode)]
  ++ (match r.functionError with
      | some fe => [("FunctionError", Value.s fe)]
      | none => [])
  ++ (match r.logResult with
      | some lr => [("LogResult", Value.s lr)]
      | none => [])
  ++ [("Payload", Value.stream r.payloadBytes)]

/-- The outside world one handler run interacts with: the process environment
mapping, the STS `assume_role` endpoint (arguments: `RoleArn`,
`RoleSessionName`) and the Lambda `invoke` endpoint (arguments: the client,
`FunctionName`, `LogType`, `Payload`). -/
structure Env where
  environ : List (String × String)
  sts_assume_role : String → String → Except PyExc Credentials
  lambda_invoke : LambdaClient → String → String → String → Except PyExc RawResponse

/-- Python `os.environ[key]`, raising `KeyError` when the variable is unset. -/
def environGet (env : Env) (key : String) : Except PyExc String :=
  match env.environ.find? (fun kv => kv.1 == key) with
  | some kv => Except.ok kv.2
  | none => Except.error (.keyError key)

/-- Source `handle_response_status_and_msg`: set `responseStatus` from
`ResponseMetadata.HTTPStatusCode == 200` and copy that code into
`statusCode`, mutating and returning the response dictionary. -/
def handle_response_status_and_msg (response : PyDict) : Except PyExc PyDict :=
  match dictGet response "ResponseMetadata" with
  | Except.error e => Except.error e
  | Except.ok md =>
    match pyGetItem md "HTTPStatusCode" with
    | Except.error e => Except.error e
    | Except.ok httpCode =>
      let response :=
        if Value.isN200 httpCode then dictSet response "responseStatus" (Value.s "SUCCESS")
        else dictSet response "responseStatus" (Value.s "FAILED")
      Except.ok (dictSet response "statusCode" httpCode)

/-- Source `handle_error`: logs and returns the fixed failure dictionary.
The `statusCode` and `response_status` parameters are accepted but never
read; the result always carries `400`, `FAILED` and the JSON-encoded
stringified message. -/
def handle_error (event : Value) (error_message : String) (statusCode : Value) (response_status : String) : PyDict :=
  [("event", event),
   ("statusCode", Value.n 400),
   ("responseStatus", Value.s "FAILED"),
   ("body", Value.s (json_dumps_string error_message))]

/-- Source `get_lambda_client_in_hub_account`: assume the hub role with the
fixed session name `VPCE_PERMISSIONS`, then build a Lambda client from the
temporary credential triple. -/
def get_lambda_client_in_hub_account (env : Env) (hub_account_role_arn : String) : Except PyExc LambdaClient :=
  match env.sts_assume_role hub_account_role_arn "VPCE_PERMISSIONS" with
  | Except.error e => Except.error e
  | Except.ok cred =>
    Except.ok { awsAccessKeyId := cred.accessKeyId,
                awsSecretAccessKey := cred.secretAccessKey,
                awsSessionToken := cred.sessionToken }

/-- The two consecutive source statements
`actual_response_from_hub_lambda = json.loads(response[\x27Payload\x27].read().decode("utf-8"))` and
`actual_status_code = actual_response_from_hub_lambda[\x27statusCode\x27]`:
a JSON decode failure raises `json.JSONDecodeError`; a decoded value without
a `statusCode` entry raises `KeyError` (or `TypeError` when not a dict). -/
def payload_nested_status_code (response : RawResponse) : Except PyExc Value :=
  match response.payloadJson with
  | Except.error m => Except.error (.jsonDecodeError m)
  | Except.ok v => pyGetItem v "statusCode"

/-- The body of the `try` clause of `invoke_lambda_in_the_networking_account`:
build the client, invoke the hub Lambda with the JSON-serialized event and
`LogType=Tail`, decode the nested status code, and branch on
`"FunctionError" in response.keys() or actual_status_code != 200`. -/
def invoke_try_body (env : Env) (hub_account_role_arn hub_account_lambda_name : String) (event : Value) : Except PyExc PyDict :=
  match get_lambda_client_in_hub_account env hub_account_role_arn with
  | Except.error e => Except.error e
  | Except.ok lambda_client =>
    match env.lambda_invoke lambda_client hub_account_lambda_name "Tail" (Value.dumps event) with
    | Except.error e => Except.error e
    | Except.ok response =>
      match payload_nested_status_code response with
      | Except.error e => Except.error e
      | Except.ok actual_status_code =>
        if response.functionError.isSome || !(Value.isN200 actual_status_code) then
          match response.logResult with
          | none => Except.error (.keyError "LogResult")
          | some lr =>
            Except.ok (handle_error event (decode_log_result lr) actual_status_code "FAILED")
        else
          handle_response_status_and_msg (RawResponse.toDict response)

/-- Source `invoke_lambda_in_the_networking_account`: the `try` body wrapped
in `except ClientError`, which converts only that class through
`handle_error` with arguments `500, FAILED`; every other exception
propagates. -/
def invoke_lambda_in_the_networking_account (env : Env) (hub_account_role_arn hub_account_lambda_name : String) (event : Value) : Except PyExc PyDict :=
  match invoke_try_body env hub_account_role_arn hub_account_lambda_name event with
  | Except.error (.clientError m) =>
    Except.ok (handle_error event ("Unable to invoke VPC Endpoint permission Lambda function in NETWORK account: " ++ m) (Value.n 500) "FAILED")
  | Except.error e => Except.error e
  | Except.ok r => Except.ok r

/-- Source `lambda_handler`: the two `os.environ` lookups happen before the
`try` clause, so a missing variable raises out of the handler; inside the
`try`, the invoke result has its `statusCode` read for logging and is
returned, and any exception becomes the fixed dictionary with `400`,
`FAILED` and `str(ex)` as body. -/
def lambda_handler (env : Env) (event : Value) : Except PyExc PyDict :=
  match environGet env "VPCE_PERM_ROLE_ARN" with
  | Except.error e => Except.error e
  | Except.ok hub_account_role_arn =>
    match environGet env "FUNC_NAME" with
    | Except.error e => Except.error e
    | Except.ok hub_account_lambda_name =>
      Except.ok
        (match
          (match invoke_lambda_in_the_networking_account env hub_account_role_arn hub_account_lambda_name event with
           | Except.error e => Except.error e
           | Except.ok response =>
             match dictGet response "statusCode" with
             | Except.error e => Except.error e
             | Except.ok _ => Except.ok response : Except PyExc PyDict) with
         | Except.ok response => response
         | Except.error ex =>
           [("event", event),
            ("statusCode", Value.n 400),
            ("responseStatus", Value.s "FAILED"),
            ("body", Value.s (PyExc.toStr ex))])

/-- Shape of every failure dictionary the module produces: `handle_error`
returns it with a JSON-encoded message body, the top-level catch-all with a
`str(ex)` body. -/
def errorDict (event body : Value) : PyDict :=
  [("event", event),
   ("statusCode", Value.n 400),
   ("responseStatus", Value.s "FAILED"),
   ("body", body)]

/-- Shape of the remote-success return value: the raw response dictionary
with `responseStatus` and `statusCode` appended from the transport-level
`HTTPStatusCode`, exactly as `handle_response_status_and_msg` leaves it. -/
def successDict (resp : RawResponse) : PyDict :=
  RawResponse.toDict resp ++
  [("responseStatus", Value.s (if resp.httpStatusCode == 200 then "SUCCESS" else "FAILED")),
   ("statusCode", Value.n resp.httpStatusCode)]

/-! Concrete fixtures used by witnesses and counterexamples: one sample
event, one credential triple, the client it yields, a populated process
environment, and one `Env` per scenario the claims exercise. -/

/-- Sample event from the spec scenario: an `Action: Grant` request. -/
def ev0 : Value :=
  Value.d (ValueDict.cons "Action" (Value.s "Grant")
    (ValueDict.cons "ServiceId" (Value.s "vpce-123") ValueDict.nil))

/-- Sample temporary credential triple. -/
def creds0 : Credentials :=
  { accessKeyId := "AKID", secretAccessKey := "SECRET", sessionToken := "TOKEN" }

/-- The client `get_lambda_client_in_hub_account` builds from `creds0`. -/
def client0 : LambdaClient :=
  { awsAccessKeyId := "AKID", awsSecretAccessKey := "SECRET", awsSessionToken := "TOKEN" }

/-- A process environment carrying both required variables. -/
def environ0 : List (String × String) :=
  [("VPCE_PERM_ROLE_ARN", "arn:aws:iam::111:role/hub"), ("FUNC_NAME", "hub-fn")]

/-- Raw response of a fully successful remote invocation: transport 200, no
execution error, nested `statusCode` 200. -/
def rawSuccess : RawResponse :=
  { httpStatusCode := 200, transportStatusCode := 200, functionError := none,
    logResult := some "bG9n",
    payloadBytes := "\x7b\"statusCode\": 200\x7d",
    payloadJson := Except.ok (Value.d (ValueDict.cons "statusCode" (Value.n 200) ValueDict.nil)) }

/-- World in which assume-role and invoke both succeed and the remote
function reports nested 200. -/
def envSuccess : Env :=
  { environ := environ0,
    sts_assume_role := fun _ _ => Except.ok creds0,
    lambda_invoke := fun _ _ _ _ => Except.ok rawSuccess }

/-- Raw response with transport 200 but nested `statusCode` 403 and no
execution-error flag, log tail `bG9n` (base64 of `log`). -/
def rawNested403 : RawResponse :=
  { httpStatusCode := 200, transportStatusCode := 200, functionError := none,
    logResult := some "bG9n",
    payloadBytes := "\x7b\"statusCode\": 403\x7d",
    payloadJson := Except.ok (Value.d (ValueDict.cons "statusCode" (Value.n 403) ValueDict.nil)) }

/-- World in which the remote function reports a nested 403 denial. -/
def envNested403 : Env :=
  { environ := environ0,
    sts_assume_role := fun _ _ => Except.ok creds0,
    lambda_invoke := fun _ _ _ _ => Except.ok rawNested403 }

/-- Raw response whose payload bytes are not valid JSON. -/
def rawBadPayload : RawResponse :=
  { httpStatusCode := 200, transportStatusCode := 200, functionError := none,
    logResult := some "bG9n",
    payloadBytes := "not json",
    payloadJson := Except.error "Expecting value: line 1 column 1 (char 0)" }

/-- World in which the remote payload does not decode as JSON. -/
def envBadPayload : Env :=
  { environ := environ0,
    sts_assume_role := fun _ _ => Except.ok creds0,
    lambda_invoke := fun _ _ _ _ => Except.ok rawBadPayload }

/-- Raw response on which the failure branch fires (execution-error flag
present) but the transport response has no `LogResult` key. -/
def rawNoLogResult : RawResponse :=
  { httpStatusCode := 200, transportStatusCode := 200, functionError := some "Unhandled",
    logResult := none,
    payloadBytes := "\x7b\"statusCode\": 200\x7d",
    payloadJson := Except.ok (Value.d (ValueDict.cons "statusCode" (Value.n 200) ValueDict.nil)) }

/-- World with a remote execution error and no log tail in the response. -/
def envNoLogResult : Env :=
  { environ := environ0,
    sts_assume_role := fun _ _ => Except.ok creds0,
    lambda_invoke := fun _ _ _ _ => Except.ok rawNoLogResult }

/-- World in which STS rejects the assume-role call with a `ClientError`. -/
def envAssumeFail : Env :=
  { environ := environ0,
    sts_assume_role := fun _ _ => Except.error (.clientError "AccessDenied when calling the AssumeRole operation"),
    lambda_invoke := fun _ _ _ _ => Except.error (.other "unreachable") }

/-- World in which the transport call to the remote function fails with a
`ClientError` (function not found). -/
def envInvokeFail : Env :=
  { environ := environ0,
    sts_assume_role := fun _ _ => Except.ok creds0,
    lambda_invoke := fun _ _ _ _ => Except.error (.clientError "ResourceNotFoundException when calling the Invoke operation") }

/-- World whose process environment lacks both configuration variables. -/
def envMissingConfig : Env :=
  { environ := [],
    sts_assume_role := fun _ _ => Except.ok creds0,
    lambda_invoke := fun _ _ _ _ => Except.ok rawSuccess }

/-! Shared lemmas about the embedded functions. -/

/-- On a raw invoke response dictionary, `handle_response_status_and_msg`
appends `responseStatus` (from `HTTPStatusCode == 200`) and `statusCode`
(the `HTTPStatusCode` itself). -/
theorem hrsm_toDict (resp : RawResponse) :
    handle_response_status_and_msg (RawResponse.toDict resp) = Except.ok (successDict resp) := by
  rcases resp with ⟨http, tsc, fe, lr, pb, pj⟩
  rcases fe with _ | fe <;> rcases lr with _ | lr <;>
    cases hb : http == 200 <;>
      simp [handle_response_status_and_msg, RawResponse.toDict, successDict, dictGet,
        pyGetItem, ValueDict.get, dictSet, dictHasKey, Value.isN200, hb]

/-- The remote-success dictionary never carries an `event` entry. -/
theorem successDict_get_event (resp : RawResponse) :
    dictGet (successDict resp) "event" = Except.error (.keyError "event") := by
  rcases resp with ⟨http, tsc, fe, lr, pb, pj⟩
  rcases fe with _ | fe <;> rcases lr with _ | lr <;> rfl

/-- The remote-success dictionary has no `event` or `body` key but does have
`statusCode` and `responseStatus` keys. -/
theorem successDict_keys (resp : RawResponse) :
    dictHasKey (successDict resp) "event" = false ∧
    dictHasKey (successDict resp) "body" = false ∧
    dictHasKey (successDict resp) "statusCode" = true ∧
    dictHasKey (successDict resp) "responseStatus" = true := by
  rcases resp with ⟨http, tsc, fe, lr, pb, pj⟩
  rcases fe with _ | fe <;> rcases lr with _ | lr <;> exact ⟨rfl, rfl, rfl, rfl⟩

/-- The remote-success dictionary reports the transport `HTTPStatusCode` as
its `statusCode`. -/
theorem successDict_get_statusCode (resp : RawResponse) :
    dictGet (successDict resp) "statusCode" = Except.ok (Value.n resp.httpStatusCode) := by
  rcases resp with ⟨http, tsc, fe, lr, pb, pj⟩
  rcases fe with _ | fe <;> rcases lr with _ | lr <;> rfl

/-- The remote-success dictionary reports `SUCCESS` or `FAILED` according to
the transport `HTTPStatusCode`. -/
theorem successDict_get_responseStatus (resp : RawResponse) :
    dictGet (successDict resp) "responseStatus" =
      Except.ok (Value.s (if resp.httpStatusCode == 200 then "SUCCESS" else "FAILED")) := by
  rcases resp with ⟨http, tsc, fe, lr, pb, pj⟩
  rcases fe with _ | fe <;> rcases lr with _ | lr <;> rfl

/-- The payload-decoding step never raises `ClientError`, so the local
handler in `invoke_lambda_in_the_networking_account` cannot catch its
failures. -/
theorem payload_nested_not_clientError (response : RawResponse) (ex : PyExc)
    (h : payload_nested_status_code response = Except.error ex) :
    ∀ m, ex ≠ PyExc.clientError m := by
  rcases hpj : response.payloadJson with m | v
  · have hv : payload_nested_status_code response = Except.error (.jsonDecodeError m) := by
      simp only [payload_nested_status_code, hpj]
    rw [hv] at h
    injection h with h
    subst h
    intro m' hm
    exact PyExc.noConfusion hm
  · rcases v with k | str | str | md
    case d =>
      rcases hg : md.get "statusCode" with _ | x
      · have hv : payload_nested_status_code response = Except.error (.keyError "statusCode") := by
          simp only [payload_nested_status_code, hpj, pyGetItem, hg]
        rw [hv] at h
        injection h with h
        subst h
        intro m' hm
        exact PyExc.noConfusion hm
      · have hv : payload_nested_status_code response = Except.ok x := by
          simp only [payload_nested_status_code, hpj, pyGetItem, hg]
        rw [hv] at h
        exact Except.noConfusion h
    all_goals
      have hv : payload_nested_status_code response = Except.error (.typeError "value is not subscriptable") := by
        simp only [payload_nested_status_code, hpj, pyGetItem]
    all_goals
      rw [hv] at h
      injection h with h
      subst h
      intro m' hm
      exact PyExc.noConfusion hm

/-- A `ClientError` escaping the try body is converted by the local handler
into the fixed failure dictionary embedding the provider detail. -/
theorem invoke_catch_clientError (env : Env) (arn fn : String) (event : Value) (m : String)
    (h : invoke_try_body env arn fn event = Except.error (.clientError m)) :
    invoke_lambda_in_the_networking_account env arn fn event =
      Except.ok (errorDict event (Value.s (json_dumps_string
        ("Unable to invoke VPC Endpoint permission Lambda function in NETWORK account: " ++ m)))) := by
  simp only [invoke_lambda_in_the_networking_account, h, handle_error, errorDict]

/-- Any non-`ClientError` exception in the try body propagates out of
`invoke_lambda_in_the_networking_account` uncaught. -/
theorem invoke_passthrough_error (env : Env) (arn fn : String) (event : Value) (ex : PyExc)
    (h : invoke_try_body env arn fn event = Except.error ex)
    (hne : ∀ m, ex ≠ PyExc.clientError m) :
    invoke_lambda_in_the_networking_account env arn fn event = Except.error ex := by
  cases ex with
  | clientError m => exact absurd rfl (hne m)
  | keyError k => simp only [invoke_lambda_in_the_networking_account, h]
  | jsonDecodeError m => simp only [invoke_lambda_in_the_networking_account, h]
  | typeError m => simp only [invoke_lambda_in_the_networking_account, h]
  | other m => simp only [invoke_lambda_in_the_networking_account, h]

/-- A successful try body is returned unchanged. -/
theorem invoke_passthrough_ok (env : Env) (arn fn : String) (event : Value) (r : PyDict)
    (h : invoke_try_body env arn fn event = Except.ok r) :
    invoke_lambda_in_the_networking_account env arn fn event = Except.ok r := by
  simp only [invoke_lambda_in_the_networking_account, h]

/-- With both configuration variables present, `lambda_handler` converts an
exception from the invocation chain into the fixed failure dictionary with a
`str(ex)` body. -/
theorem lambda_handler_of_invoke_error (env : Env) (event : Value) (arn fn : String) (ex : PyExc)
    (h1 : environGet env "VPCE_PERM_ROLE_ARN" = Except.ok arn)
    (h2 : environGet env "FUNC_NAME" = Except.ok fn)
    (h : invoke_lambda_in_the_networking_account env arn fn event = Except.error ex) :
    lambda_handler env event = Except.ok (errorDict event (Value.s (PyExc.toStr ex))) := by
  simp only [lambda_handler, h1, h2, h, errorDict]

/-- With both configuration variables present, a returned invocation result
whose `statusCode` entry exists is passed through by `lambda_handler`. -/
theorem lambda_handler_of_invoke_ok (env : Env) (event : Value) (arn fn : String) (r : PyDict) (v : Value)
    (h1 : environGet env "VPCE_PERM_ROLE_ARN" = Except.ok arn)
    (h2 : environGet env "FUNC_NAME" = Except.ok fn)
    (h : invoke_lambda_in_the_networking_account env arn fn event = Except.ok r)
    (hsc : dictGet r "statusCode" = Except.ok v) :
    lambda_handler env event = Except.ok r := by
  simp only [lambda_handler, h1, h2, h, hsc]

/-- With both configuration variables present, a returned invocation result
without a `statusCode` entry trips the logging lookup inside the try clause
and the catch-all converts that `KeyError`. -/
theorem lambda_handler_of_invoke_ok_nostatus (env : Env) (event : Value) (arn fn : String) (r : PyDict) (e : PyExc)
    (h1 : environGet env "VPCE_PERM_ROLE_ARN" = Except.ok arn)
    (h2 : environGet env "FUNC_NAME" = Except.ok fn)
    (h : invoke_lambda_in_the_networking_account env arn fn event = Except.ok r)
    (hsc : dictGet r "statusCode" = Except.error e) :
    lambda_handler env event = Except.ok (errorDict event (Value.s (PyExc.toStr e))) := by
  simp only [lambda_handler, h1, h2, h, hsc, errorDict]

/-- Every successful return of `invoke_lambda_in_the_networking_account` is
either a `handle_error` failure dictionary for the original event or the
augmented raw response dictionary of some remote response. -/
theorem invoke_ok_shape (env : Env) (arn fn : String) (event : Value) (r : PyDict)
    (h : invoke_lambda_in_the_networking_account env arn fn event = Except.ok r) :
    (∃ b, r = errorDict event (Value.s b)) ∨ (∃ resp, r = successDict resp) := by
  rcases hcl : get_lambda_client_in_hub_account env arn with e | client
  · have htb : invoke_try_body env arn fn event = Except.error e := by
      simp only [invoke_try_body, hcl]
    cases e with
    | clientError m =>
      rw [invoke_catch_clientError env arn fn event m htb] at h
      injection h with h
      exact Or.inl ⟨_, h.symm⟩
    | keyError k =>
      rw [invoke_passthrough_error env arn fn event _ htb (fun m hm => PyExc.noConfusion hm)] at h
      exact Except.noConfusion h
    | jsonDecodeError m =>
      rw [invoke_passthrough_error env arn fn event _ htb (fun m hm => PyExc.noConfusion hm)] at h
      exact Except.noConfusion h
    | typeError m =>
      rw [invoke_passthrough_error env arn fn event _ htb (fun m hm => PyExc.noConfusion hm)] at h
      exact Except.noConfusion h
    | other m =>
      rw [invoke_passthrough_error env arn fn event _ htb (fun m hm => PyExc.noConfusion hm)] at h
      exact Except.noConfusion h
  · rcases hin : env.lambda_invoke client fn "Tail" (Value.dumps event) with e | resp
    · have htb : invoke_try_body env arn fn event = Except.error e := by
        simp only [invoke_try_body, hcl, hin]
      cases e with
      | clientError m =>
        rw [invoke_catch_clientError env arn fn event m htb] at h
        injection h with h
        exact Or.inl ⟨_, h.symm⟩
      | keyError k =>
        rw [invoke_passthrough_error env arn fn event _ htb (fun m hm => PyExc.noConfusion hm)] at h
        exact Except.noConfusion h
      | jsonDecodeError m =>
        rw [invoke_passthrough_error env arn fn event _ htb (fun m hm => PyExc.noConfusion hm)] at h
        exact Except.noConfusion h
      | typeError m =>
        rw [invoke_passthrough_error env arn fn event _ htb (fun m hm => PyExc.noConfusion hm)] at h
        exact Except.noConfusion h
      | other m =>
        rw [invoke_passthrough_error env arn fn event _ htb (fun m hm => PyExc.noConfusion hm)] at h
        exact Except.noConfusion h
    · rcases hps : payload_nested_status_code resp with e | code
      · have htb : invoke_try_body env arn fn event = Except.error e := by
          simp only [invoke_try_body, hcl, hin, hps]
        rw [invoke_passthrough_error env arn fn event _ htb
          (payload_nested_not_clientError resp e hps)] at h
        exact Except.noConfusion h
      · cases hcond : (resp.functionError.isSome || !(Value.isN200 code)) with
        | true =>
          rcases hlr : resp.logResult with _ | lr
          · have htb : invoke_try_body env arn fn event = Except.error (.keyError "LogResult") := by
              simp only [invoke_try_body, hcl, hin, hps, hcond, if_true, hlr]
            rw [invoke_passthrough_error env arn fn event _ htb (fun m hm => PyExc.noConfusion hm)] at h
            exact Except.noConfusion h
          · have htb : invoke_try_body env arn fn event =
                Except.ok (handle_error event (decode_log_result lr) code "FAILED") := by
              simp only [invoke_try_body, hcl, hin, hps, hcond, if_true, hlr]
            rw [invoke_passthrough_ok env arn fn event _ htb] at h
            injection h with h
            exact Or.inl ⟨_, h.symm⟩
        | false =>
          have htb : invoke_try_body env arn fn event = Except.ok (successDict resp) := by
            simp [invoke_try_body, hcl, hin, hps, hcond, hrsm_toDict]
          rw [invoke_passthrough_ok env arn fn event _ htb] at h
          injection h with h
          exact Or.inr ⟨resp, h.symm⟩

/-- Every successful return of `lambda_handler` is either a failure
dictionary for the original event or the augmented raw response dictionary
of some remote response. -/
theorem lambda_handler_ok_shape (env : Env) (event : Value) (r : PyDict)
    (h : lambda_handler env event = Except.ok r) :
    (∃ b, r = errorDict event b) ∨ (∃ resp, r = successDict resp) := by
  rcases h1 : environGet env "VPCE_PERM_ROLE_ARN" with e | arn
  · have : lambda_handler env event = Except.error e := by
      simp only [lambda_handler, h1]
    rw [this] at h
    exact Except.noConfusion h
  rcases h2 : environGet env "FUNC_NAME" with e | fn
  · have : lambda_handler env event = Except.error e := by
      simp only [lambda_handler, h1, h2]
    rw [this] at h
    exact Except.noConfusion h
  rcases hinv : invoke_lambda_in_the_networking_account env arn fn event with e | r0
  · rw [lambda_handler_of_invoke_error env event arn fn e h1 h2 hinv] at h
    injection h with h
    exact Or.inl ⟨_, h.symm⟩
  · rcases hsc : dictGet r0 "statusCode" with e | v
    · rw [lambda_handler_of_invoke_ok_nostatus env event arn fn r0 e h1 h2 hinv hsc] at h
      injection h with h
      exact Or.inl ⟨_, h.symm⟩
    · rw [lambda_handler_of_invoke_ok env event arn fn r0 v h1 h2 hinv hsc] at h
      injection h with h
      rw [← h]
      rcases invoke_ok_shape env arn fn event r0 hinv with ⟨b, hb⟩ | ⟨resp, hresp⟩
      · exact Or.inl ⟨Value.s b, hb⟩
      · exact Or.inr ⟨resp, hresp⟩

/-! Claim theorems. -/

/-- C1 counterexample: the claim that `lambda_handler` never lets an
exception escape, in particular not a configuration lookup failure, is
false on the code: with `VPCE_PERM_ROLE_ARN` unset the `os.environ` lookup
happens before the `try` clause and the `KeyError` escapes to the caller. -/
theorem C1_config_failure_escapes_cex :
    lambda_handler envMissingConfig ev0 = Except.error (PyExc.keyError "VPCE_PERM_ROLE_ARN") := rfl

/-- C1 (amended): when both configuration variables are present,
`lambda_handler` always returns a result dictionary, and any exception
raised by the invocation chain is converted at the top-level boundary into
`statusCode = 400`, `responseStatus = FAILED`, `body =` the stringified
exception; a missing configuration variable, however, raises before the
fault barrier and escapes. -/
theorem C1_fault_barrier_amended (env : Env) (event : Value) (arn fn : String)
    (h1 : environGet env "VPCE_PERM_ROLE_ARN" = Except.ok arn)
    (h2 : environGet env "FUNC_NAME" = Except.ok fn) :
    (∃ r, lambda_handler env event = Except.ok r) ∧
    (∀ ex, invoke_lambda_in_the_networking_account env arn fn event = Except.error ex →
      lambda_handler env event = Except.ok (errorDict event (Value.s (PyExc.toStr ex)))) := by
  constructor
  · simp only [lambda_handler, h1, h2]
    exact ⟨_, rfl⟩
  · intro ex h
    exact lambda_handler_of_invoke_error env event arn fn ex h1 h2 h

/-- C1 witness: in the world where the remote payload is not JSON, the
handler returns the 400/FAILED dictionary carrying the stringified decode
exception. -/
theorem C1_fault_barrier_amended_witness :
    lambda_handler envBadPayload ev0 =
      Except.ok (errorDict ev0 (Value.s "Expecting value: line 1 column 1 (char 0)")) :=
  (C1_fault_barrier_amended envBadPayload ev0 "arn:aws:iam::111:role/hub" "hub-fn" rfl rfl).2
    (PyExc.jsonDecodeError "Expecting value: line 1 column 1 (char 0)") rfl

/-- C2 counterexample: the claim that `handle(event)` always returns a
mapping with exactly the keys `event`, `statusCode`, `responseStatus`,
`body` fails on the remote-success path: there the raw transport response
dictionary is returned, which has neither an `event` nor a `body` key. -/
theorem C2_success_shape_cex :
    lambda_handler envSuccess ev0 = Except.ok (successDict rawSuccess) ∧
    dictHasKey (successDict rawSuccess) "event" = false ∧
    dictHasKey (successDict rawSuccess) "body" = false ∧
    keysOf (successDict rawSuccess) ≠ ["event", "statusCode", "responseStatus", "body"] :=
  ⟨rfl, rfl, rfl, by decide⟩

/-- C2 (amended): every successful return of `lambda_handler` either has
exactly the four keys `event`, `statusCode`, `responseStatus`, `body` (all
failure paths), or is the raw transport response augmented with
`statusCode` and `responseStatus` and containing neither `event` nor `body`
(the remote-success path). -/
theorem C2_output_shape_amended (env : Env) (event : Value) (r : PyDict)
    (h : lambda_handler env event = Except.ok r) :
    keysOf r = ["event", "statusCode", "responseStatus", "body"] ∨
    (dictHasKey r "event" = false ∧ dictHasKey r "body" = false ∧
     dictHasKey r "statusCode" = true ∧ dictHasKey r "responseStatus" = true) := by
  rcases lambda_handler_ok_shape env event r h with ⟨b, hb⟩ | ⟨resp, hresp⟩
  · subst hb
    exact Or.inl rfl
  · subst hresp
    exact Or.inr (successDict_keys resp)

/-- C2 witness: in the world with a remote error and no log tail, the
handler output has exactly the four required keys. -/
theorem C2_output_shape_amended_witness :
    keysOf (errorDict ev0 (Value.s "\x27LogResult\x27")) =
      ["event", "statusCode", "responseStatus", "body"] ∨
    (dictHasKey (errorDict ev0 (Value.s "\x27LogResult\x27")) "event" = false ∧
     dictHasKey (errorDict ev0 (Value.s "\x27LogResult\x27")) "body" = false ∧
     dictHasKey (errorDict ev0 (Value.s "\x27LogResult\x27")) "statusCode" = true ∧
     dictHasKey (errorDict ev0 (Value.s "\x27LogResult\x27")) "responseStatus" = true) :=
  C2_output_shape_amended envNoLogResult ev0 (errorDict ev0 (Value.s "\x27LogResult\x27")) rfl

/-- C3: whenever the execution-error flag is present or the nested status
code is not the int 200, and the response carries a log tail, the
invocation step returns `statusCode = 400` (whatever the nested code was),
`responseStatus = FAILED`, and `body` = the base64-decoded log tail
JSON-encoded as a string. -/
theorem C3_remote_failure_flattened (env : Env) (arn fn : String) (event : Value)
    (client : LambdaClient) (response : RawResponse) (code : Value) (lr : String)
    (hc : get_lambda_client_in_hub_account env arn = Except.ok client)
    (hi : env.lambda_invoke client fn "Tail" (Value.dumps event) = Except.ok response)
    (hp : payload_nested_status_code response = Except.ok code)
    (herr : response.functionError.isSome = true ∨ Value.isN200 code = false)
    (hlr : response.logResult = some lr) :
    invoke_lambda_in_the_networking_account env arn fn event =
      Except.ok [("event", event), ("statusCode", Value.n 400), ("responseStatus", Value.s "FAILED"),
        ("body", Value.s (json_dumps_string (decode_log_result lr)))] := by
  have hcond : (response.functionError.isSome || !(Value.isN200 code)) = true := by
    rcases herr with h | h <;> simp [h]
  have htb : invoke_try_body env arn fn event =
      Except.ok (handle_error event (decode_log_result lr) code "FAILED") := by
    simp only [invoke_try_body, hc, hi, hp, hcond, if_true, hlr]
  rw [invoke_passthrough_ok env arn fn event _ htb]
  rfl

/-- C3 witness: nested status 403 with no execution-error flag is flattened
to 400/FAILED with the decoded log tail `log` as JSON-encoded body. -/
theorem C3_remote_failure_flattened_witness :
    invoke_lambda_in_the_networking_account envNested403 "arn:aws:iam::111:role/hub" "hub-fn" ev0 =
      Except.ok [("event", ev0), ("statusCode", Value.n 400), ("responseStatus", Value.s "FAILED"),
        ("body", Value.s "\"log\"")] :=
  C3_remote_failure_flattened envNested403 "arn:aws:iam::111:role/hub" "hub-fn" ev0
    client0 rawNested403 (Value.n 403) "bG9n" rfl rfl rfl (Or.inr rfl) rfl

/-- C4: with no execution-error flag and nested status exactly the int 200,
the invocation step returns the transport response augmented from
transport-level metadata: `statusCode` is the transport `HTTPStatusCode`,
and `responseStatus` is `SUCCESS` exactly when that code is 200. -/
theorem C4_remote_success_transport (env : Env) (arn fn : String) (event : Value)
    (client : LambdaClient) (response : RawResponse)
    (hc : get_lambda_client_in_hub_account env arn = Except.ok client)
    (hi : env.lambda_invoke client fn "Tail" (Value.dumps event) = Except.ok response)
    (hp : payload_nested_status_code response = Except.ok (Value.n 200))
    (hfe : response.functionError = none) :
    invoke_lambda_in_the_networking_account env arn fn event = Except.ok (successDict response) ∧
    dictGet (successDict response) "statusCode" = Except.ok (Value.n response.httpStatusCode) ∧
    (dictGet (successDict response) "responseStatus" = Except.ok (Value.s "SUCCESS") ↔
      response.httpStatusCode = 200) := by
  have hcond : (response.functionError.isSome || !(Value.isN200 (Value.n 200))) = false := by
    simp [hfe, Value.isN200]
  have htb : invoke_try_body env arn fn event = Except.ok (successDict response) := by
    simp [invoke_try_body, hc, hi, hp, hcond, hrsm_toDict]
  refine ⟨invoke_passthrough_ok env arn fn event _ htb, successDict_get_statusCode response, ?_⟩
  rw [successDict_get_responseStatus response]
  by_cases hb : response.httpStatusCode = 200
  · simp [hb]
  · simp [hb]

/-- C4 witness: transport 200, nested 200, no execution error yields
`statusCode = 200` and `responseStatus = SUCCESS`. -/
theorem C4_remote_success_transport_witness :
    invoke_lambda_in_the_networking_account envSuccess "arn:aws:iam::111:role/hub" "hub-fn" ev0 =
      Except.ok (successDict rawSuccess) ∧
    dictGet (successDict rawSuccess) "statusCode" = Except.ok (Value.n 200) ∧
    (dictGet (successDict rawSuccess) "responseStatus" = Except.ok (Value.s "SUCCESS") ↔
      (200 : Nat) = 200) :=
  C4_remote_success_transport envSuccess "arn:aws:iam::111:role/hub" "hub-fn" ev0
    client0 rawSuccess rfl rfl rfl rfl

/-- C5: when the payload does not decode as JSON with a nested `statusCode`
field, the exception passes the invocation step uncaught (its local handler
catches only `ClientError`) and the top-level catch-all returns the generic
400/FAILED dictionary with the stringified exception as body. -/
theorem C5_malformed_payload_catch_all (env : Env) (event : Value) (arn fn : String)
    (client : LambdaClient) (response : RawResponse) (ex : PyExc)
    (h1 : environGet env "VPCE_PERM_ROLE_ARN" = Except.ok arn)
    (h2 : environGet env "FUNC_NAME" = Except.ok fn)
    (hc : get_lambda_client_in_hub_account env arn = Except.ok client)
    (hi : env.lambda_invoke client fn "Tail" (Value.dumps event) = Except.ok response)
    (hp : payload_nested_status_code response = Except.error ex) :
    invoke_lambda_in_the_networking_account env arn fn event = Except.error ex ∧
    lambda_handler env event = Except.ok (errorDict event (Value.s (PyExc.toStr ex))) := by
  have htb : invoke_try_body env arn fn event = Except.error ex := by
    simp only [invoke_try_body, hc, hi, hp]
  have hinv := invoke_passthrough_error env arn fn event ex htb
    (payload_nested_not_clientError response ex hp)
  exact ⟨hinv, lambda_handler_of_invoke_error env event arn fn ex h1 h2 hinv⟩

/-- C5 witness: a payload that is not valid JSON surfaces through the
catch-all as 400/FAILED with the decode message as body. -/
theorem C5_malformed_payload_catch_all_witness :
    invoke_lambda_in_the_networking_account envBadPayload "arn:aws:iam::111:role/hub" "hub-fn" ev0 =
      Except.error (PyExc.jsonDecodeError "Expecting value: line 1 column 1 (char 0)") ∧
    lambda_handler envBadPayload ev0 =
      Except.ok (errorDict ev0 (Value.s "Expecting value: line 1 column 1 (char 0)")) :=
  C5_malformed_payload_catch_all envBadPayload ev0 "arn:aws:iam::111:role/hub" "hub-fn"
    client0 rawBadPayload (PyExc.jsonDecodeError "Expecting value: line 1 column 1 (char 0)")
    rfl rfl rfl rfl rfl

/-- C6: a transport `ClientError` from the invoke call is converted by the
explicit local handler of the invocation step itself (not the top-level
catch-all) into 400/FAILED, despite being passed `500` as the status
argument. -/
theorem C6_transport_failure_local_handler (env : Env) (arn fn : String) (event : Value)
    (client : LambdaClient) (m : String)
    (hc : get_lambda_client_in_hub_account env arn = Except.ok client)
    (hi : env.lambda_invoke client fn "Tail" (Value.dumps event) = Except.error (.clientError m)) :
    invoke_lambda_in_the_networking_account env arn fn event =
      Except.ok (errorDict event (Value.s (json_dumps_string
        ("Unable to invoke VPC Endpoint permission Lambda function in NETWORK account: " ++ m)))) := by
  have htb : invoke_try_body env arn fn event = Except.error (.clientError m) := by
    simp only [invoke_try_body, hc, hi]
  exact invoke_catch_clientError env arn fn event m htb

/-- C6 witness: a function-not-found transport failure yields the local
handler's 400/FAILED dictionary with the embedded provider detail. -/
theorem C6_transport_failure_local_handler_witness :
    invoke_lambda_in_the_networking_account envInvokeFail "arn:aws:iam::111:role/hub" "hub-fn" ev0 =
      Except.ok (errorDict ev0 (Value.s (json_dumps_string
        "Unable to invoke VPC Endpoint permission Lambda function in NETWORK account: ResourceNotFoundException when calling the Invoke operation"))) :=
  C6_transport_failure_local_handler envInvokeFail "arn:aws:iam::111:role/hub" "hub-fn" ev0
    client0 "ResourceNotFoundException when calling the Invoke operation" rfl rfl

/-- C7: when the identity provider rejects the assume-role call, the
handler returns 400/FAILED with the failure detail in the body, and the
result does not depend on the remote invoke endpoint at all (the remote
function is never invoked, hence nothing is retried). -/
theorem C7_identity_failure (env : Env) (event : Value) (arn fn : String) (ex : PyExc)
    (h1 : environGet env "VPCE_PERM_ROLE_ARN" = Except.ok arn)
    (h2 : environGet env "FUNC_NAME" = Except.ok fn)
    (ha : env.sts_assume_role arn "VPCE_PERMISSIONS" = Except.error ex) :
    (∃ r, lambda_handler env event = Except.ok r ∧
      dictGet r "statusCode" = Except.ok (Value.n 400) ∧
      dictGet r "responseStatus" = Except.ok (Value.s "FAILED") ∧
      (dictGet r "body" = Except.ok (Value.s (PyExc.toStr ex)) ∨
       dictGet r "body" = Except.ok (Value.s (json_dumps_string
         ("Unable to invoke VPC Endpoint permission Lambda function in NETWORK account: " ++ PyExc.toStr ex))))) ∧
    (∀ f, lambda_handler { env with lambda_invoke := f } event = lambda_handler env event) := by
  have hcl : get_lambda_client_in_hub_account env arn = Except.error ex := by
    simp only [get_lambda_client_in_hub_account, ha]
  have htb : invoke_try_body env arn fn event = Except.error ex := by
    simp only [invoke_try_body, hcl]
  constructor
  · cases ex with
    | clientError m =>
      have hinv := invoke_catch_clientError env arn fn event m htb
      exact ⟨_, lambda_handler_of_invoke_ok env event arn fn _ (Value.n 400) h1 h2 hinv rfl,
        rfl, rfl, Or.inr rfl⟩
    | keyError k =>
      have hinv := invoke_passthrough_error env arn fn event _ htb (fun m hm => PyExc.noConfusion hm)
      exact ⟨_, lambda_handler_of_invoke_error env event arn fn _ h1 h2 hinv, rfl, rfl, Or.inl rfl⟩
    | jsonDecodeError m =>
      have hinv := invoke_passthrough_error env arn fn event _ htb (fun m hm => PyExc.noConfusion hm)
      exact ⟨_, lambda_handler_of_invoke_error env event arn fn _ h1 h2 hinv, rfl, rfl, Or.inl rfl⟩
    | typeError m =>
      have hinv := invoke_passthrough_error env arn fn event _ htb (fun m hm => PyExc.noConfusion hm)
      exact ⟨_, lambda_handler_of_invoke_error env event arn fn _ h1 h2 hinv, rfl, rfl, Or.inl rfl⟩
    | other m =>
      have hinv := invoke_passthrough_error env arn fn event _ htb (fun m hm => PyExc.noConfusion hm)
      exact ⟨_, lambda_handler_of_invoke_error env event arn fn _ h1 h2 hinv, rfl, rfl, Or.inl rfl⟩
  · intro f
    have h1' : environGet { env with lambda_invoke := f } "VPCE_PERM_ROLE_ARN" = Except.ok arn := h1
    have h2' : environGet { env with lambda_invoke := f } "FUNC_NAME" = Except.ok fn := h2
    have hcl' : get_lambda_client_in_hub_account { env with lambda_invoke := f } arn = Except.error ex := hcl
    have htb' : invoke_try_body { env with lambda_invoke := f } arn fn event = Except.error ex := by
      simp only [invoke_try_body, hcl']
    cases ex with
    | clientError m =>
      rw [lambda_handler_of_invoke_ok _ event arn fn _ (Value.n 400) h1' h2'
            (invoke_catch_clientError _ arn fn event m htb') rfl,
          lambda_handler_of_invoke_ok env event arn fn _ (Value.n 400) h1 h2
            (invoke_catch_clientError env arn fn event m htb) rfl]
    | keyError k =>
      rw [lambda_handler_of_invoke_error _ event arn fn _ h1' h2'
            (invoke_passthrough_error _ arn fn event _ htb' (fun m hm => PyExc.noConfusion hm)),
          lambda_handler_of_invoke_error env event arn fn _ h1 h2
            (invoke_passthrough_error env arn fn event _ htb (fun m hm => PyExc.noConfusion hm))]
    | jsonDecodeError m =>
      rw [lambda_handler_of_invoke_error _ event arn fn _ h1' h2'
            (invoke_passthrough_error _ arn fn event _ htb' (fun m hm => PyExc.noConfusion hm)),
          lambda_handler_of_invoke_error env event arn fn _ h1 h2
            (invoke_passthrough_error env arn fn event _ htb (fun m hm => PyExc.noConfusion hm))]
    | typeError m =>
      rw [lambda_handler_of_invoke_error _ event arn fn _ h1' h2'
            (invoke_passthrough_error _ arn fn event _ htb' (fun m hm => PyExc.noConfusion hm)),
          lambda_handler_of_invoke_error env event arn fn _ h1 h2
            (invoke_passthrough_error env arn fn event _ htb (fun m hm => PyExc.noConfusion hm))]
    | other m =>
      rw [lambda_handler_of_invoke_error _ event arn fn _ h1' h2'
            (invoke_passthrough_error _ arn fn event _ htb' (fun m hm => PyExc.noConfusion hm)),
          lambda_handler_of_invoke_error env event arn fn _ h1 h2
            (invoke_passthrough_error env arn fn event _ htb (fun m hm => PyExc.noConfusion hm))]

/-- C7 witness: an `AccessDenied` from the identity provider yields
400/FAILED with the detail embedded in the body, independently of the
invoke endpoint. -/
theorem C7_identity_failure_witness :
    ∃ r, lambda_handler envAssumeFail ev0 = Except.ok r ∧
      dictGet r "statusCode" = Except.ok (Value.n 400) ∧
      dictGet r "responseStatus" = Except.ok (Value.s "FAILED") ∧
      (dictGet r "body" = Except.ok (Value.s (PyExc.toStr
        (PyExc.clientError "AccessDenied when calling the AssumeRole operation"))) ∨
       dictGet r "body" = Except.ok (Value.s (json_dumps_string
         ("Unable to invoke VPC Endpoint permission Lambda function in NETWORK account: " ++
          PyExc.toStr (PyExc.clientError "AccessDenied when calling the AssumeRole operation"))))) :=
  (C7_identity_failure envAssumeFail ev0 "arn:aws:iam::111:role/hub" "hub-fn"
    (PyExc.clientError "AccessDenied when calling the AssumeRole operation") rfl rfl rfl).1

/-- C8: whenever the handler output contains an `event` entry, it is the
original input event unchanged; and the invocation step depends on the
invoke endpoint only at the payload `json.dumps(event)`, i.e. the payload
sent to the remote function is the unmodified serialized input event. -/
theorem C8_event_passthrough :
    (∀ env event r v, lambda_handler env event = Except.ok r →
      dictGet r "event" = Except.ok v → v = event) ∧
    (∀ env1 env2 arn fn event, env1.environ = env2.environ →
      env1.sts_assume_role = env2.sts_assume_role →
      (∀ client, env1.lambda_invoke client fn "Tail" (Value.dumps event) =
        env2.lambda_invoke client fn "Tail" (Value.dumps event)) →
      invoke_lambda_in_the_networking_account env1 arn fn event =
        invoke_lambda_in_the_networking_account env2 arn fn event) := by
  constructor
  · intro env event r v h hv
    rcases lambda_handler_ok_shape env event r h with ⟨b, hb⟩ | ⟨resp, hresp⟩
    · subst hb
      have hev : dictGet (errorDict event b) "event" = Except.ok event := rfl
      rw [hev] at hv
      injection hv with hv
      exact hv.symm
    · subst hresp
      rw [successDict_get_event resp] at hv
      exact Except.noConfusion hv
  · intro env1 env2 arn fn event he hs hi
    unfold invoke_lambda_in_the_networking_account invoke_try_body get_lambda_client_in_hub_account
    rw [hs]
    simp only [hi]

/-- C8 witness: in the nested-403 world the output `event` entry equals the
input event. -/
theorem C8_event_passthrough_witness : ev0 = ev0 :=
  C8_event_passthrough.1 envNested403 ev0 (errorDict ev0 (Value.s "\"log\"")) ev0 rfl rfl

/-- C9: `handle_error` ignores its `statusCode` and `response_status`
arguments entirely: the result is always the 400/FAILED dictionary with the
JSON-encoded message, identical for any two choices of those arguments. -/
theorem C9_handle_error_ignores_status_args (event : Value) (msg : String)
    (sc sc' : Value) (rs rs' : String) :
    handle_error event msg sc rs = errorDict event (Value.s (json_dumps_string msg)) ∧
    handle_error event msg sc rs = handle_error event msg sc' rs' :=
  ⟨rfl, rfl⟩

/-- C10: when the failure branch fires but the response has no `LogResult`
key, the `KeyError` passes the invocation step's local handler (which
catches only `ClientError`) and the top-level handler still returns a
well-formed 400/FAILED dictionary with the stringified `KeyError` as body. -/
theorem C10_missing_log_result (env : Env) (event : Value) (arn fn : String)
    (client : LambdaClient) (response : RawResponse) (code : Value)
    (h1 : environGet env "VPCE_PERM_ROLE_ARN" = Except.ok arn)
    (h2 : environGet env "FUNC_NAME" = Except.ok fn)
    (hc : get_lambda_client_in_hub_account env arn = Except.ok client)
    (hi : env.lambda_invoke client fn "Tail" (Value.dumps event) = Except.ok response)
    (hp : payload_nested_status_code response = Except.ok code)
    (herr : response.functionError.isSome = true ∨ Value.isN200 code = false)
    (hlr : response.logResult = none) :
    invoke_lambda_in_the_networking_account env arn fn event =
      Except.error (PyExc.keyError "LogResult") ∧
    lambda_handler env event =
      Except.ok (errorDict event (Value.s (PyExc.toStr (PyExc.keyError "LogResult")))) := by
  have hcond : (response.functionError.isSome || !(Value.isN200 code)) = true := by
    rcases herr with h | h <;> simp [h]
  have htb : invoke_try_body env arn fn event = Except.error (PyExc.keyError "LogResult") := by
    simp only [invoke_try_body, hc, hi, hp, hcond, if_true, hlr]
  have hinv := invoke_passthrough_error env arn fn event _ htb (fun m hm => PyExc.noConfusion hm)
  exact ⟨hinv, lambda_handler_of_invoke_error env event arn fn _ h1 h2 hinv⟩

/-- C10 witness: an execution error with no log tail surfaces through the
catch-all as 400/FAILED with the stringified `KeyError` body. -/
theorem C10_missing_log_result_witness :
    invoke_lambda_in_the_networking_account envNoLogResult "arn:aws:iam::111:role/hub" "hub-fn" ev0 =
      Except.error (PyExc.keyError "LogResult") ∧
    lambda_handler envNoLogResult ev0 =
      Except.ok (errorDict ev0 (Value.s "\x27LogResult\x27")) :=
  C10_missing_log_result envNoLogResult ev0 "arn:aws:iam::111:role/hub" "hub-fn"
    client0 rawNoLogResult (Value.n 200) rfl rfl rfl rfl rfl (Or.inl rfl) rfl

end Spoke
